import Mathlib

set_option maxRecDepth 10000

/-!
# Verification of the SimpleDB normalization and rendering pipeline

Shallow embedding of `src/simpledb.py`: the Normalizer
(`SimpleXDB._parse_message`, `SimpleXDB._format_timestamp`,
`SimpleXDB.get_contact_messages`) and the three renderers
(`ChatExporter.export_txt`, `ChatExporter.export_json`,
`ChatExporter.export_html`, `ChatExporter._escape_html`).

Conventions of the embedding:
* Python strings are `String`; Python `len`/slicing count code points, which
  matches Lean's `String.length` / `List Char` operations.
* A database column holding a JSON-encoded string is modelled by `RawVal`:
  `nullv` for SQL NULL or the empty string (both falsy in Python),
  `malformed s` for a non-empty string rejected by `json.loads`, and
  `parsed j` for a non-empty string that `json.loads` decodes to the JSON
  value `j`.
* A Python statement that raises an uncaught exception is modelled by
  `Option`/`none` at the function that would abort.
-/

/-- JSON values, the result type of Python's `json.loads`.  Python `dict`s
become `obj` association lists in insertion order (JSON object keys are
unique after `json.loads`). -/
inductive Json where
  | null
  | bool (b : Bool)
  | num (n : Int)
  | str (s : String)
  | arr (elems : List Json)
  | obj (fields : List (String × Json))

/-- Python `dict.get(key)`: first binding of `key` in the association list. -/
def jlookup (key : String) : List (String × Json) → Option Json
  | [] => none
  | (k, v) :: rest => if k = key then some v else jlookup key rest

/-- A raw database column that the code feeds to `json.loads`.
`nullv` is SQL NULL or `""` (falsy, so the `if column:` guard skips it);
`malformed s` is a non-empty string on which `json.loads` raises;
`parsed j` is a non-empty string that decodes to `j`. -/
inductive RawVal where
  | nullv
  | malformed (s : String)
  | parsed (j : Json)

/-- `RawVal.isUnparsableOrMissing v` holds when the column is NULL/empty or
`json.loads` fails on it. -/
def RawVal.isUnparsableOrMissing : RawVal → Bool
  | .nullv => true
  | .malformed _ => true
  | .parsed _ => false

/-- One row of the `chat_items` query (`SELECT chat_item_id, item_ts,
item_sent, item_text, item_deleted, item_content, item_edited,
quoted_content, quoted_sent`).  The 0/1 integer flag columns are modelled
by the `Bool` their Python truthiness produces (`bool(item_sent)`,
`bool(item_deleted)`, `bool(item_edited) if item_edited else False`,
`bool(quoted_sent)`). -/
structure Row where
  chat_item_id : Int
  item_ts : Option String
  item_sent : Bool
  item_text : Option String
  item_deleted : Bool
  item_content : RawVal
  item_edited : Bool
  quoted_content : RawVal
  quoted_sent : Bool

/-- Canonical quote attached to a reply (the `quote` sub-dict built by
`_parse_message`). -/
structure Quote where
  text : String
  sent_by_me : Bool

/-- Canonical message: the dict returned by `SimpleXDB._parse_message`,
field for field and in insertion order. -/
structure Message where
  id : Int
  timestamp : String
  timestamp_raw : Option String
  sent : Bool
  sender : String
  text : String
  deleted : Bool
  edited : Bool
  content_type : Json
  quote : Option Quote

/-! ## Timestamp formatting (`SimpleXDB._format_timestamp`) -/

/-- Naive date-time fields as carried by a Python `datetime` (the zone
offset, when present in the input, does not change these fields). -/
structure PyDateTime where
  year : Nat
  month : Nat
  day : Nat
  hour : Nat
  minute : Nat
  second : Nat
  deriving DecidableEq

/-- Decimal digit value of a character, if it is a digit. -/
def digitVal (c : Char) : Option Nat :=
  if c.isDigit then some (c.toNat - '0'.toNat) else none

/-- Two-digit decimal number from two characters. -/
def num2 (a b : Char) : Option Nat := do
  let x ← digitVal a
  let y ← digitVal b
  pure (x * 10 + y)

/-- Four-digit decimal number from four characters. -/
def num4 (a b c d : Char) : Option Nat := do
  let x ← num2 a b
  let y ← num2 c d
  pure (x * 100 + y)

/-- Gregorian leap year, as Python's `calendar`/`datetime` use it. -/
def isLeap (y : Nat) : Bool := (y % 4 = 0 ∧ y % 100 ≠ 0) ∨ y % 400 = 0

/-- Number of days of month `m` in year `y`. -/
def daysInMonth (y m : Nat) : Nat :=
  if m = 2 then (if isLeap y then 29 else 28)
  else if m = 4 ∨ m = 6 ∨ m = 9 ∨ m = 11 then 30
  else 31

/-- Range validation performed by the `datetime` constructor. -/
def mkPyDateTime (y mo d h mi s : Nat) : Option PyDateTime :=
  if 1 ≤ y ∧ y ≤ 9999 ∧ 1 ≤ mo ∧ mo ≤ 12 ∧ 1 ≤ d ∧ d ≤ daysInMonth y mo
     ∧ h ≤ 23 ∧ mi ≤ 59 ∧ s ≤ 59 then
    some ⟨y, mo, d, h, mi, s⟩
  else none

/-- Model of Python's `datetime.fromisoformat` (external library, not in
`src/`) on the profile this program can feed it:
`YYYY-MM-DD?HH:MM:SS` with an arbitrary single separator character
(Python accepts any single character in the separator position) and an
optional `±HH:MM` zone offset.  Fields are range-checked as the `datetime`
constructor does.  Shorter ISO forms (date only, `HH` or `HH:MM` times)
accepted by some Python versions never arise in the claims and are outside
the model. -/
def fromisoformat (s : String) : Option PyDateTime :=
  match s.data with
  | [y1, y2, y3, y4, '-', m1, m2, '-', d1, d2, _sep,
     h1, h2, ':', n1, n2, ':', s1, s2] => do
      let y ← num4 y1 y2 y3 y4
      let mo ← num2 m1 m2
      let d ← num2 d1 d2
      let h ← num2 h1 h2
      let mi ← num2 n1 n2
      let sec ← num2 s1 s2
      mkPyDateTime y mo d h mi sec
  | [y1, y2, y3, y4, '-', m1, m2, '-', d1, d2, _sep,
     h1, h2, ':', n1, n2, ':', s1, s2, sg, o1, o2, ':', o3, o4] => do
      let y ← num4 y1 y2 y3 y4
      let mo ← num2 m1 m2
      let d ← num2 d1 d2
      let h ← num2 h1 h2
      let mi ← num2 n1 n2
      let sec ← num2 s1 s2
      let oh ← num2 o1 o2
      let om ← num2 o3 o4
      if (sg = '+' ∨ sg = '-') ∧ oh ≤ 23 ∧ om ≤ 59 then
        mkPyDateTime y mo d h mi sec
      else none
  | _ => none

/-- Zero-pad to two digits, as `strftime` does for `%m %d %H %M %S`. -/
def pad2 (n : Nat) : String := if n < 10 then "0" ++ toString n else toString n

/-- Zero-pad to four digits, as `strftime` does for `%Y`. -/
def pad4 (n : Nat) : String :=
  if n < 10 then "000" ++ toString n
  else if n < 100 then "00" ++ toString n
  else if n < 1000 then "0" ++ toString n
  else toString n

/-- `dt.strftime('%Y-%m-%d %H:%M:%S')`. -/
def strftimeYmdHMS (dt : PyDateTime) : String :=
  pad4 dt.year ++ "-" ++ pad2 dt.month ++ "-" ++ pad2 dt.day ++ " "
    ++ pad2 dt.hour ++ ":" ++ pad2 dt.minute ++ ":" ++ pad2 dt.second

/-- Python `c in s` for a single character `c`. -/
def pyHasChar (s : String) (c : Char) : Bool := s.data.contains c

/-- Line 219 of the source: `str(ts).split('.')[0] if '.' in str(ts) else
str(ts).replace('Z', '')`.  `split('.')[0]` is the part before the first
dot; `replace('Z', '')` removes every `'Z'` in the string. -/
def cleanTs (s : String) : String :=
  if pyHasChar s '.' then String.mk (s.data.takeWhile (fun c => c ≠ '.'))
  else String.mk (s.data.filter (fun c => c ≠ 'Z'))

/-- `SimpleXDB._format_timestamp` (source lines 213-224).  The column is
`Option String`; `if not ts:` is true for `none` and `""`.  The
`try/except` around the body is modelled by the `Option` result of
`fromisoformat`: on parse failure the raw string is returned. -/
def formatTimestamp : Option String → String
  | none => ""
  | some s =>
    if s = "" then ""
    else if pyHasChar s 'T' then
      match fromisoformat (cleanTs s) with
      | some dt => strftimeYmdHMS dt
      | none => s
    else s

/-! ## Normalizer (`SimpleXDB._parse_message`) -/

/-- Content-type extraction, source lines 174-184.  `content_type` starts
as `'text'`; when the column is truthy, `json.loads` is attempted and
`content.get('rcvMsgContent', content.get('sndMsgContent', {}))` is read;
if the parsed document is not a dict the attribute access raises and the
`except: pass` leaves `'text'` in place.  When `msgContent` holds a
non-dict, `inner.get` likewise raises and `'text'` survives.  When the
nested `type` field is present, its value is taken verbatim (no validation
against an enumeration). -/
def extractContentType : RawVal → Json
  | .parsed (Json.obj kvs) =>
    let msgContent := (jlookup "rcvMsgContent" kvs).getD
      ((jlookup "sndMsgContent" kvs).getD (Json.obj []))
    match msgContent with
    | Json.obj mkvs =>
      match (jlookup "msgContent" mkvs).getD (Json.obj []) with
      | Json.obj ikvs => (jlookup "type" ikvs).getD (Json.str "text")
      | _ => Json.str "text"
    | _ => Json.str "text"
  | _ => Json.str "text"

/-- Quote extraction, source lines 186-198.  The quote is built only when
the column is truthy, parses, is a dict, and its `text` field is a truthy
value; otherwise `quote` stays `None`.  Explicit modelling hypothesis: the
embedding restricts to records whose `text` field, when truthy, holds a
string — the canonical case of the data model.  For a truthy *non-string*
`text` (e.g. `{"text": 5}`) `_parse_message` would build the dict
`{'text': 5, 'sent_by_me': ...}`, a non-canonical quote not representable
in the canonical `Quote` (its later rendering crashes at the slice of
line 285 for unsliceable values, or embeds a Python repr); the model maps
this case to `none`.  No claim enumerates this case and no theorem below
places it under its hypotheses. -/
def extractQuote : RawVal → Bool → Option Quote
  | .parsed (Json.obj kvs), qsent =>
    match (jlookup "text" kvs).getD (Json.str "") with
    | Json.str s => if s ≠ "" then some ⟨s, qsent⟩ else none
    | _ => none
  | _, _ => none

/-- Sender label, source line 205: `'ME' if item_sent else (contact_name
or 'CONTACT')` — `or` falls through on `None` and on the empty string. -/
def senderLabel (sent : Bool) (contactName : Option String) : String :=
  if sent then "ME"
  else
    let cn := contactName.getD ""
    if cn = "" then "CONTACT" else cn

/-- `SimpleXDB._parse_message` (source lines 170-211).  The function body
always reaches the final `return { ... }`: every fallible step is wrapped
in `try/except: pass`, so a `Message` is produced for every row. -/
def parseMessage (row : Row) (contactName : Option String) : Message :=
  { id := row.chat_item_id
    timestamp := formatTimestamp row.item_ts
    timestamp_raw := row.item_ts
    sent := row.item_sent
    sender := senderLabel row.item_sent contactName
    text := row.item_text.getD ""
    deleted := row.item_deleted
    edited := row.item_edited
    content_type := extractContentType row.item_content
    quote := extractQuote row.quoted_content row.quoted_sent }

/-- The collection loop of `SimpleXDB.get_contact_messages` (source lines
134-139): `msg = self._parse_message(r, contact_name); if msg:
messages.append(msg)`.  The guard `if msg:` always holds because
`_parse_message` returns a non-empty dict (a truthy value), so every row
contributes its message. -/
def getContactMessages (rows : List Row) (contactName : Option String) :
    List Message :=
  rows.foldr (fun r acc => parseMessage r contactName :: acc) []

/-! ## HTML escaping (`ChatExporter._escape_html`) -/

/-- Python `s.replace(old, new)` for a single-character `old`: every
occurrence of the character is replaced by the string `r`. -/
def replace1 (c : Char) (r : List Char) (l : List Char) : List Char :=
  l.flatMap (fun x => if x = c then r else [x])

/-- `ChatExporter._escape_html` (source lines 466-472): the five
`str.replace` calls applied in source order — `&` first, then `<`, `>`,
`"`, and finally newline to `<br>`. -/
def escapeHtml (s : String) : String :=
  String.mk
    (replace1 '\n' "<br>".data
      (replace1 '"' "&quot;".data
        (replace1 '>' "&gt;".data
          (replace1 '<' "&lt;".data
            (replace1 '&' "&amp;".data s.data)))))

/-- Single-pass per-character escaping.  `escapeHtml` coincides with it
(proved below), which is the precise sense in which no entity introduced
by a later substitution is double-escaped. -/
def escChar (c : Char) : List Char :=
  if c = '&' then "&amp;".data
  else if c = '<' then "&lt;".data
  else if c = '>' then "&gt;".data
  else if c = '"' then "&quot;".data
  else if c = '\n' then "<br>".data
  else [c]

/-! ## Shared renderer helpers -/

/-- Python `s[:n]` slicing (counts code points, like Lean `Char`s). -/
def pySlice (s : String) (n : Nat) : String := String.mk (s.data.take n)

/-- Python `s.split(sep)` for a single-character separator: all segments,
empty segments preserved (`''.split(c) == ['']`). -/
def pySplitChar (sep : Char) : List Char → List (List Char)
  | [] => [[]]
  | c :: rest =>
    let r := pySplitChar sep rest
    if c = sep then [] :: r
    else
      match r with
      | h :: t => (c :: h) :: t
      | [] => [[c]]

/-- `timestamp.split(' ')[0]`: the part before the first space (the whole
string when there is no space). -/
def dateOfTimestamp (ts : String) : String :=
  String.mk (ts.data.takeWhile (fun c => c ≠ ' '))

/-- `timestamp.split(' ')[1]`: the segment between the first and second
space; only evaluated by the source under `' ' in timestamp`. -/
def timeOfTimestamp (ts : String) : String :=
  String.mk (((ts.data.dropWhile (fun c => c ≠ ' ')).drop 1).takeWhile
    (fun c => c ≠ ' '))

/-- `msg['timestamp'].split(' ')[0] if msg['timestamp'] else ''` (source
lines 267 and 424). -/
def msgDate (m : Message) : String :=
  if m.timestamp ≠ "" then dateOfTimestamp m.timestamp else ""

/-- The `CONTENT_ICONS` table of `ChatExporter` (source lines 245-252). -/
def CONTENT_ICONS : List (String × String) :=
  [("text", ""), ("image", "📷"), ("file", "📎"), ("voice", "🎤"),
   ("video", "🎬"), ("link", "🔗")]

/-- Whether a JSON value is hashable in Python: lists and dicts are not,
and using one as a `dict.get` key raises `TypeError`. -/
def Json.isHashable : Json → Bool
  | .arr _ => false
  | .obj _ => false
  | _ => true

/-- `self.CONTENT_ICONS.get(msg['content_type'], default)`: a string key
is looked up; a hashable non-string key (`None`, a bool, a number) never
equals the table's string keys, so it yields the default; an unhashable
key (a list or dict, reachable through the verbatim `type` passthrough)
makes `dict.get` raise `TypeError` — modelled as `none`. -/
def iconFor (ct : Json) (deflt : String) : Option String :=
  match ct with
  | Json.str s => some ((CONTENT_ICONS.lookup s).getD deflt)
  | Json.arr _ => none
  | Json.obj _ => none
  | _ => some deflt

/-- `msg['content_type'].upper()`: defined for strings (ASCII here);
calling `.upper()` on a non-string raises `AttributeError`, which no
exporter catches — modelled as `none`. -/
def contentTypeUpper : Json → Option String
  | Json.str s => some s.toUpper
  | _ => none

/-! ## Text renderer (`ChatExporter.export_txt`) -/

/-- `'\n'.join(lines)`. -/
def joinNL : List String → String
  | [] => ""
  | [l] => l
  | l :: rest => l ++ "\n" ++ joinNL rest

/-- Quote preview of the text renderer, source lines 285-287:
`quote_preview = msg['quote']['text'][:50]` plus `'...'` exactly when
`len(...) > 50`. -/
def quotePreviewTxt (t : String) : String :=
  let p := pySlice t 50
  if t.length > 50 then p ++ "..." else p

/-- The reply line of the text renderer, source lines 284-288. -/
def txtQuoteLine (q : Quote) : String :=
  "│  ↳ Reply to " ++ (if q.sent_by_me then "ME" else "THEM") ++ ": \""
    ++ quotePreviewTxt q.text ++ "\""

/-- `time = msg['timestamp'].split(' ')[1] if ' ' in msg['timestamp'] else
msg['timestamp']` (source line 275). -/
def txtTime (m : Message) : String :=
  if pyHasChar m.timestamp ' ' then timeOfTimestamp m.timestamp
  else m.timestamp

/-- The `┌─ [{time}] {sender}{edited}` header line (source line 280). -/
def txtHeaderLine (m : Message) : String :=
  "┌─ [" ++ txtTime m ++ "] " ++ m.sender
    ++ (if m.edited then " [edited]" else "")

/-- The lines one message contributes to the text export, source lines
274-301 (header, optional quote line, content lines, closing `└─` and a
blank line).  The icon lookup of line 278 is evaluated unconditionally
for every message, before the `deleted` check, so an unhashable content
type aborts the export even for deleted messages (`TypeError` in
`dict.get`, the outer `bind`); `msg['content_type'].upper()` additionally
raises `AttributeError` on a non-string content type when the message is
not deleted and has empty text.  Both uncaught failures are modelled as
`none`. -/
def txtMsgChunk (m : Message) : Option (List String) :=
  (iconFor m.content_type "").bind (fun icon =>
    let quoteLines : List String :=
      match m.quote with
      | some q => [txtQuoteLine q]
      | none => []
    let contentLines : Option (List String) :=
      if m.deleted then some ["│  [Message deleted]"]
      else if m.text ≠ "" then
        some ((pySplitChar '\n' m.text.data).map (fun tl =>
          "│  " ++ (if icon ≠ "" then icon ++ " " else "") ++ String.mk tl))
      else
        (contentTypeUpper m.content_type).map (fun u =>
          ["│  " ++ icon ++ " [" ++ u ++ "]"])
    contentLines.map (fun cls =>
      txtHeaderLine m :: (quoteLines ++ cls ++ ["└─", ""])))

/-- The date-separator line `{'─' * 25} {current_date} {'─' * 25}` (source
line 271). -/
def sepLineTxt (d : String) : String :=
  String.mk (List.replicate 25 '─') ++ " " ++ d ++ " "
    ++ String.mk (List.replicate 25 '─')

/-- One iteration of the `for msg in messages` loop of `export_txt`
(source lines 265-301): the tracked `current_date` is updated and the
separator block emitted exactly when `msg_date and msg_date !=
current_date`. -/
def txtStep (cd : Option String) (m : Message) :
    Option String × Option (List String) :=
  let d := msgDate m
  if d ≠ "" ∧ some d ≠ cd then
    (some d, (txtMsgChunk m).map (fun ls => ["", sepLineTxt d, ""] ++ ls))
  else
    (cd, txtMsgChunk m)

/-- The whole message loop of `export_txt`, threading `current_date`
(initially `None`). -/
def txtLoop (cd : Option String) : List Message → Option (List String)
  | [] => some []
  | m :: ms =>
    match txtStep cd m with
    | (cd1, some ls) => (txtLoop cd1 ms).map (fun rest => ls ++ rest)
    | (_, none) => none

/-- `ChatExporter.export_txt` (source lines 254-308) as the document text
it writes: header banner, message loop, footer banner, joined by
newlines.  `now` stands for `datetime.now().strftime(...)`. -/
def exportTxt (messages : List Message) (chatName now : String) :
    Option String :=
  (txtLoop none messages).map (fun body =>
    let bar := String.mk (List.replicate 70 '=')
    joinNL ([bar,
             "  SIMPLEX CHAT EXPORT: " ++ chatName,
             "  Exported: " ++ now,
             "  Messages: " ++ toString messages.length,
             bar,
             ""] ++ body
            ++ [bar, "  END OF EXPORT", bar]))

/-! ## HTML renderer (`ChatExporter.export_html`) -/

/-- `time = msg['timestamp'].split(' ')[1] if ' ' in msg['timestamp'] else
''` (source line 430; unlike the text renderer the fallback is empty). -/
def htmlTime (m : Message) : String :=
  if pyHasChar m.timestamp ' ' then timeOfTimestamp m.timestamp else ""

/-- The message-header part of one HTML message block (source lines
429-437).  Note that `msg["sender"]` and the time are embedded without
`_escape_html`. -/
def htmlHeaderPart (m : Message) : String :=
  let cls := if m.sent then "sent" else "received"
  let edited := if m.edited then "<span class=\"edited\">(edited)</span>" else ""
  "            <div class=\"msg " ++ cls ++ "\">\n"
    ++ "                <div class=\"msg-header\">\n"
    ++ "                    <span class=\"sender\">" ++ m.sender ++ "</span>\n"
    ++ "                    <span><span class=\"time\">" ++ htmlTime m
    ++ "</span>" ++ edited ++ "</span>\n"
    ++ "                </div>\n"

/-- The quote block of one HTML message (source lines 439-445): the quote
text is sliced to 100 characters and then escaped. -/
def htmlQuotePart : Option Quote → String
  | some q =>
    let qSender := if q.sent_by_me then "ME" else "THEM"
    let qText := escapeHtml (pySlice q.text 100)
    "                <div class=\"quote\">\n"
      ++ "                    <div class=\"quote-sender\">↩ " ++ qSender ++ "</div>\n"
      ++ "                    <div class=\"quote-text\">" ++ qText ++ "</div>\n"
      ++ "                </div>\n"
  | none => ""

/-- The content div of one HTML message (source lines 447-454): deleted
marker, escaped body text, or media placeholder.  In the placeholder
branch the icon lookup of line 453 is evaluated first (raising
`TypeError` on an unhashable content type), then `.upper()` (raising
`AttributeError` on a non-string one); both uncaught failures are
modelled as `none`.  Unlike the text renderer, the lookup here sits
inside the `else` branch only. -/
def htmlContentPart (m : Message) : Option String :=
  if m.deleted then
    some "                <div class=\"content deleted\">[Message deleted]</div>\n"
  else if m.text ≠ "" then
    some ("                <div class=\"content\">" ++ escapeHtml m.text
      ++ "</div>\n")
  else
    (iconFor m.content_type "📄").bind (fun icon =>
      (contentTypeUpper m.content_type).map (fun u =>
        "                <div class=\"content\"><span class=\"media\">"
          ++ icon ++ " " ++ u ++ "</span></div>\n"))

/-- One complete HTML message block (source lines 433-456). -/
def htmlMsgPart (m : Message) : Option String :=
  (htmlContentPart m).map (fun content =>
    htmlHeaderPart m ++ htmlQuotePart m.quote ++ content
      ++ "            </div>\n")

/-- The HTML date separator (source line 427). -/
def sepLineHtml (d : String) : String :=
  "            <div class=\"date-sep\">─── " ++ d ++ " ───</div>\n"

/-- One iteration of the `for msg in messages` loop of `export_html`
(source lines 423-456), threading `current_date` as in the text
renderer. -/
def htmlStep (cd : Option String) (m : Message) :
    Option String × Option String :=
  let d := msgDate m
  if d ≠ "" ∧ some d ≠ cd then
    (some d, (htmlMsgPart m).map (fun s => sepLineHtml d ++ s))
  else
    (cd, htmlMsgPart m)

/-- The whole message loop of `export_html`. -/
def htmlLoop (cd : Option String) : List Message → Option String
  | [] => some ""
  | m :: ms =>
    match htmlStep cd m with
    | (cd1, some s) => (htmlLoop cd1 ms).map (fun rest => s ++ rest)
    | (_, none) => none

/-- The document prologue of `export_html` (the f-string of source lines
326-420): doctype, embedded stylesheet, page header.  `chat_name`,
`datetime.now().strftime(...)` and `len(messages)` are interpolated
without escaping. -/
def htmlDocHeader (chatName now : String) (msgCount : Nat) : String :=
  "<!DOCTYPE html>
<html lang=\"en\">
<head>
    <meta charset=\"UTF-8\">
    <meta name=\"viewport\" content=\"width=device-width, initial-scale=1.0\">
    <title>Chat Export: " ++ chatName ++ "</title>
    <style>
        * \x7b margin: 0; padding: 0; box-sizing: border-box; \x7d
        body \x7b
            font-family: -apple-system, BlinkMacSystemFont, \x27Segoe UI\x27, Roboto, sans-serif;
            background: linear-gradient(135deg, #0a0a0f 0%, #1a1a2e 100%);
            color: #e0e0e0;
            min-height: 100vh;
            padding: 20px;
        \x7d
        .container \x7b max-width: 800px; margin: 0 auto; \x7d
        header \x7b
            text-align: center;
            padding: 30px;
            background: rgba(0, 217, 255, 0.1);
            border: 1px solid rgba(0, 217, 255, 0.3);
            border-radius: 16px;
            margin-bottom: 30px;
        \x7d
        h1 \x7b color: #00d9ff; font-size: 1.8em; margin-bottom: 10px; \x7d
        .meta \x7b color: #888; font-size: 0.9em; \x7d
        .date-sep \x7b
            text-align: center;
            padding: 15px;
            color: #00d9ff;
            font-weight: 600;
            font-size: 0.9em;
        \x7d
        .msg \x7b
            margin: 12px 0;
            padding: 14px 18px;
            border-radius: 16px;
            max-width: 75%;
            position: relative;
        \x7d
        .msg.sent \x7b
            background: linear-gradient(135deg, #0066cc, #004499);
            margin-left: auto;
            border-bottom-right-radius: 4px;
        \x7d
        .msg.received \x7b
            background: rgba(255,255,255,0.05);
            border: 1px solid rgba(255,255,255,0.1);
            margin-right: auto;
            border-bottom-left-radius: 4px;
        \x7d
        .msg-header \x7b
            display: flex;
            justify-content: space-between;
            align-items: center;
            margin-bottom: 8px;
            font-size: 0.8em;
        \x7d
        .sender \x7b font-weight: 600; color: #00d9ff; \x7d
        .sent .sender \x7b color: #66d9ff; \x7d
        .time \x7b color: #666; \x7d
        .edited \x7b color: #888; font-size: 0.75em; margin-left: 8px; \x7d
        .quote \x7b
            background: rgba(0,0,0,0.3);
            border-left: 3px solid #00d9ff;
            padding: 10px 14px;
            margin-bottom: 10px;
            border-radius: 8px;
            font-size: 0.9em;
        \x7d
        .quote-sender \x7b color: #00d9ff; font-weight: 600; font-size: 0.85em; \x7d
        .quote-text \x7b color: #aaa; margin-top: 4px; \x7d
        .content \x7b line-height: 1.6; white-space: pre-wrap; word-wrap: break-word; \x7d
        .deleted \x7b color: #666; font-style: italic; \x7d
        .media \x7b 
            display: inline-flex;
            align-items: center;
            gap: 6px;
            background: rgba(0,217,255,0.1);
            padding: 6px 12px;
            border-radius: 8px;
            font-size: 0.9em;
        \x7d
    </style>
</head>
<body>
    <div class=\"container\">
        <header>
            <h1>💬 " ++ chatName ++ "</h1>
            <div class=\"meta\">
                Exported " ++ now ++ " • " ++ toString msgCount ++ " messages
            </div>
        </header>
        <div class=\"chat\">
"

/-- The document epilogue of `export_html` (source lines 458-461). -/
def htmlDocFooter : String :=
  "        </div>
    </div>
</body>
</html>"

/-- `ChatExporter.export_html` (source lines 324-464) as the document text
it writes. -/
def exportHtml (messages : List Message) (chatName now : String) :
    Option String :=
  (htmlLoop none messages).map (fun body =>
    htmlDocHeader chatName now messages.length ++ body ++ htmlDocFooter)

/-! ## JSON renderer (`ChatExporter.export_json`) -/

/-- `json.dump` serialization of one message dict (insertion order of
`_parse_message`, source lines 200-211): nullable values become JSON
`null`, the `content_type` value is embedded verbatim, the quote becomes
its two-field object. -/
def msgToJson (m : Message) : Json :=
  Json.obj
    [("id", Json.num m.id),
     ("timestamp", Json.str m.timestamp),
     ("timestamp_raw",
       match m.timestamp_raw with
       | some s => Json.str s
       | none => Json.null),
     ("sent", Json.bool m.sent),
     ("sender", Json.str m.sender),
     ("text", Json.str m.text),
     ("deleted", Json.bool m.deleted),
     ("edited", Json.bool m.edited),
     ("content_type", m.content_type),
     ("quote",
       match m.quote with
       | some q => Json.obj [("text", Json.str q.text),
                             ("sent_by_me", Json.bool q.sent_by_me)]
       | none => Json.null)]

/-- `ChatExporter.export_json` (source lines 310-322) as the JSON document
it dumps: a `meta` object (chat name, generation timestamp, message count,
tool tag) and the full message list, serialized verbatim.  `json.dump`
followed by `json.loads` is the identity on JSON values, so the document
is modelled at the value level. -/
def exportJson (messages : List Message) (chatName nowIso : String) : Json :=
  Json.obj
    [("meta", Json.obj
       [("chat_name", Json.str chatName),
        ("exported_at", Json.str nowIso),
        ("message_count", Json.num messages.length),
        ("tool", Json.str "SimpleDB")]),
     ("messages", Json.arr (messages.map msgToJson))]

/-- Re-reading one element of the `messages` array back into a canonical
`Message`, following the spec's round-trip reading of the JSON output
(field names and nullable encodings as `export_json` writes them). -/
def msgOfJson : Json → Option Message
  | Json.obj kvs => do
    let idJ ← jlookup "id" kvs
    let id ← match idJ with | Json.num i => some i | _ => none
    let tsJ ← jlookup "timestamp" kvs
    let ts ← match tsJ with | Json.str s => some s | _ => none
    let rawJ ← jlookup "timestamp_raw" kvs
    let raw ← match rawJ with
      | Json.str s => some (some s)
      | Json.null => some (none : Option String)
      | _ => none
    let sentJ ← jlookup "sent" kvs
    let sent ← match sentJ with | Json.bool b => some b | _ => none
    let senderJ ← jlookup "sender" kvs
    let sender ← match senderJ with | Json.str s => some s | _ => none
    let textJ ← jlookup "text" kvs
    let text ← match textJ with | Json.str s => some s | _ => none
    let deletedJ ← jlookup "deleted" kvs
    let deleted ← match deletedJ with | Json.bool b => some b | _ => none
    let editedJ ← jlookup "edited" kvs
    let edited ← match editedJ with | Json.bool b => some b | _ => none
    let ct ← jlookup "content_type" kvs
    let quoteJ ← jlookup "quote" kvs
    let quote ← match quoteJ with
      | Json.null => some (none : Option Quote)
      | Json.obj [("text", Json.str t), ("sent_by_me", Json.bool b)] =>
        some (some ⟨t, b⟩)
      | _ => none
    pure ⟨id, ts, raw, sent, sender, text, deleted, edited, ct, quote⟩
  | _ => none

/-- Re-reading every element of the `messages` array, in order. -/
def decodeAll : List Json → Option (List Message)
  | [] => some []
  | j :: rest => do
    let m ← msgOfJson j
    let ms ← decodeAll rest
    pure (m :: ms)

/-- Re-reading the `messages` array of the JSON renderer's output. -/
def readMessages (doc : Json) : Option (List Message) :=
  match doc with
  | Json.obj kvs =>
    match jlookup "messages" kvs with
    | some (Json.arr xs) => decodeAll xs
    | _ => none
  | _ => none

/-! ## Concrete sample inputs used by witnesses and counterexamples -/

/-- Whether a JSON value is an object (a Python `dict`), as tested by the
source's `isinstance(msg_content, dict)`. -/
def Json.isObj : Json → Bool
  | .obj _ => true
  | _ => false

/-- A row whose content descriptor carries the unknown type `"sticker"`. -/
def rowSticker : Row :=
  ⟨7, some "2024-01-01T10:00:00", false, some "", false,
   RawVal.parsed (Json.obj [("rcvMsgContent", Json.obj
     [("msgContent", Json.obj [("type", Json.str "sticker")])])]),
   false, RawVal.nullv, false⟩

/-- A row whose content descriptor resolves to a `msgContent` object with
no `type` field. -/
def rowNoType : Row :=
  ⟨8, some "2024-01-01T10:00:00", false, some "", false,
   RawVal.parsed (Json.obj [("sndMsgContent", Json.obj
     [("msgContent", Json.obj [])])]),
   false, RawVal.nullv, false⟩

/-- A row whose `rcvMsgContent` value is a string rather than a dict. -/
def rowRcvString : Row :=
  ⟨11, some "2024-01-01T10:00:00", false, some "", false,
   RawVal.parsed (Json.obj [("rcvMsgContent", Json.str "x")]),
   false, RawVal.nullv, false⟩

/-- A row whose content descriptor matches neither message-content shape
(`json.loads` fails on it). -/
def rowGarbage : Row :=
  ⟨3, some "2024-05-05 12:00:00", true, some "hello", false,
   RawVal.malformed "not json", false, RawVal.nullv, false⟩

/-- A row with malformed content and quote columns and an unparsable
timestamp. -/
def rowMalformed : Row :=
  ⟨4, some "not-a-date", false, some "body", false,
   RawVal.malformed "\x7b", false, RawVal.malformed "[broken", true⟩

/-- Message with timestamp `2024-01-01 09:00:00`. -/
def msgJan1a : Message :=
  ⟨1, "2024-01-01 09:00:00", some "2024-01-01T09:00:00", false, "Alice", "a",
   false, false, Json.str "text", none⟩

/-- Message with an empty timestamp. -/
def msgNoDate : Message :=
  ⟨2, "", none, false, "Alice", "b", false, false, Json.str "text", none⟩

/-- Message with timestamp `2024-01-01 10:00:00`. -/
def msgJan1b : Message :=
  ⟨3, "2024-01-01 10:00:00", some "2024-01-01T10:00:00", false, "Alice", "c",
   false, false, Json.str "text", none⟩

/-- Message with timestamp `2024-01-02 08:00:00`. -/
def msgJan2 : Message :=
  ⟨4, "2024-01-02 08:00:00", some "2024-01-02T08:00:00", false, "Alice", "d",
   false, false, Json.str "text", none⟩

/-- A deleted message that still has text and a quote. -/
def msgDeleted : Message :=
  ⟨5, "2024-03-03 10:00:00", some "2024-03-03T10:00:00", true, "ME",
   "secret text", true, false, Json.str "text", some ⟨"quoted words", false⟩⟩

/-- A message whose sender label contains HTML-special characters (a
counterpart display name is user-supplied data). -/
def msgEvilSender : Message :=
  ⟨9, "2024-01-01 10:00:00", some "2024-01-01T10:00:00", false, "<i>",
   "hello", false, false, Json.str "text", none⟩

/-- A message used to witness escaping of the body text. -/
def msgEscBody : Message :=
  ⟨10, "2024-01-01 10:00:00", some "2024-01-01T10:00:00", false, "Bob",
   "a<b", false, false, Json.str "text", none⟩

/-- A sixty-character string. -/
def s60 : String := "012345678901234567890123456789012345678901234567890123456789"

/-! ## Helper lemmas -/

lemma replace1_append (c : Char) (r : List Char) (a b : List Char) :
    replace1 c r (a ++ b) = replace1 c r a ++ replace1 c r b := by
  simp [replace1]

lemma escHead (x : Char) :
    replace1 '\n' "<br>".data (replace1 '"' "&quot;".data
      (replace1 '>' "&gt;".data (replace1 '<' "&lt;".data
        (if x = '&' then "&amp;".data else [x])))) = escChar x := by
  by_cases h1 : x = '&'
  · subst h1; decide
  by_cases h2 : x = '<'
  · subst h2; decide
  by_cases h3 : x = '>'
  · subst h3; decide
  by_cases h4 : x = '"'
  · subst h4; decide
  by_cases h5 : x = '\n'
  · subst h5; decide
  simp [replace1, escChar, h1, h2, h3, h4, h5]

lemma escapeHtml_data (l : List Char) :
    replace1 '\n' "<br>".data (replace1 '"' "&quot;".data
      (replace1 '>' "&gt;".data (replace1 '<' "&lt;".data
        (replace1 '&' "&amp;".data l)))) = l.flatMap escChar := by
  induction l with
  | nil => decide
  | cons x l ih =>
    have h0 : replace1 '&' "&amp;".data (x :: l)
        = (if x = '&' then "&amp;".data else [x])
          ++ replace1 '&' "&amp;".data l := by
      simp [replace1]
    rw [h0, replace1_append, replace1_append, replace1_append,
        replace1_append, escHead, ih, List.flatMap_cons]

lemma iconFor_isSome (ct : Json) (d : String) (h : ct.isHashable = true) :
    ∃ i, iconFor ct d = some i := by
  rcases ct with _ | b | n | s | xs | kvs
  · exact ⟨d, rfl⟩
  · exact ⟨d, rfl⟩
  · exact ⟨d, rfl⟩
  · exact ⟨(CONTENT_ICONS.lookup s).getD d, rfl⟩
  · simp [Json.isHashable] at h
  · simp [Json.isHashable] at h

lemma msgOfJson_msgToJson (m : Message) : msgOfJson (msgToJson m) = some m := by
  rcases m with ⟨id, ts, raw, sent, sender, text, deleted, edited, ct, quote⟩
  rcases raw with _ | s <;> rcases quote with _ | ⟨qt, qs⟩ <;> rfl

lemma decodeAll_map (ms : List Message) :
    decodeAll (ms.map msgToJson) = some ms := by
  induction ms with
  | nil => rfl
  | cons m ms ih => simp [decodeAll, msgOfJson_msgToJson, ih]

/-! ## Claims -/

/-- **C1, counterexample.**  The claim says an unknown `type` field yields
`contentType = text`, never a value outside the enumeration
`{text, image, file, voice, video, link}`.  On a record whose descriptor
carries `type = "sticker"`, `_parse_message` passes the unknown value
through verbatim: `content_type` is `"sticker"`, which lies outside the
enumeration. -/
theorem contentType_unknown_passthrough_cx :
    (parseMessage rowSticker none).content_type = Json.str "sticker"
    ∧ "sticker" ∉ (["text", "image", "file", "voice", "video", "link"] :
        List String) :=
  ⟨rfl, by decide⟩

/-- **C1, amended.**  `content_type` is `"text"` whenever extraction
fails at any step — the content descriptor is missing or unparsable, the
parsed document is not an object, the selected
`rcvMsgContent`/`sndMsgContent` value is not an object, the `msgContent`
value is not an object, or the `type` field is missing — and when the
`type` field is present, its value is taken verbatim, even when it is not
one of the six enumerated values; never an error. -/
theorem contentType_default_or_verbatim (row : Row) (cn : Option String) :
    (row.item_content.isUnparsableOrMissing = true →
      (parseMessage row cn).content_type = Json.str "text")
    ∧ (∀ j, row.item_content = RawVal.parsed j → j.isObj = false →
        (parseMessage row cn).content_type = Json.str "text")
    ∧ (∀ kvs mc, row.item_content = RawVal.parsed (Json.obj kvs) →
        (jlookup "rcvMsgContent" kvs).getD
          ((jlookup "sndMsgContent" kvs).getD (Json.obj [])) = mc →
        mc.isObj = false →
        (parseMessage row cn).content_type = Json.str "text")
    ∧ (∀ kvs mkvs inner, row.item_content = RawVal.parsed (Json.obj kvs) →
        (jlookup "rcvMsgContent" kvs).getD
          ((jlookup "sndMsgContent" kvs).getD (Json.obj [])) = Json.obj mkvs →
        (jlookup "msgContent" mkvs).getD (Json.obj []) = inner →
        inner.isObj = false →
        (parseMessage row cn).content_type = Json.str "text")
    ∧ (∀ kvs mkvs ikvs, row.item_content = RawVal.parsed (Json.obj kvs) →
        (jlookup "rcvMsgContent" kvs).getD
          ((jlookup "sndMsgContent" kvs).getD (Json.obj [])) = Json.obj mkvs →
        (jlookup "msgContent" mkvs).getD (Json.obj []) = Json.obj ikvs →
        jlookup "type" ikvs = none →
        (parseMessage row cn).content_type = Json.str "text")
    ∧ (∀ kvs mkvs ikvs ty, row.item_content = RawVal.parsed (Json.obj kvs) →
        (jlookup "rcvMsgContent" kvs).getD
          ((jlookup "sndMsgContent" kvs).getD (Json.obj [])) = Json.obj mkvs →
        (jlookup "msgContent" mkvs).getD (Json.obj []) = Json.obj ikvs →
        jlookup "type" ikvs = some ty →
        (parseMessage row cn).content_type = ty) := by
  refine ⟨?_, ?_, ?_, ?_, ?_, ?_⟩
  · intro h
    rcases hv : row.item_content with _ | s | j
    · simp [parseMessage, extractContentType, hv]
    · simp [parseMessage, extractContentType, hv]
    · rw [hv] at h; simp [RawVal.isUnparsableOrMissing] at h
  · intro j hv hobj
    rcases j with _ | b | n | s | xs | kvs
    · simp [parseMessage, extractContentType, hv]
    · simp [parseMessage, extractContentType, hv]
    · simp [parseMessage, extractContentType, hv]
    · simp [parseMessage, extractContentType, hv]
    · simp [parseMessage, extractContentType, hv]
    · simp [Json.isObj] at hobj
  · intro kvs mc hv hmc hobj
    rcases mc with _ | b | n | t | xs | mkvs
    · simp [parseMessage, extractContentType, hv, hmc]
    · simp [parseMessage, extractContentType, hv, hmc]
    · simp [parseMessage, extractContentType, hv, hmc]
    · simp [parseMessage, extractContentType, hv, hmc]
    · simp [parseMessage, extractContentType, hv, hmc]
    · simp [Json.isObj] at hobj
  · intro kvs mkvs inner hv h1 h2 hobj
    rcases inner with _ | b | n | t | xs | ikvs
    · simp [parseMessage, extractContentType, hv, h1, h2]
    · simp [parseMessage, extractContentType, hv, h1, h2]
    · simp [parseMessage, extractContentType, hv, h1, h2]
    · simp [parseMessage, extractContentType, hv, h1, h2]
    · simp [parseMessage, extractContentType, hv, h1, h2]
    · simp [Json.isObj] at hobj
  · intro kvs mkvs ikvs hv h1 h2 h3
    simp [parseMessage, extractContentType, hv, h1, h2, h3]
  · intro kvs mkvs ikvs ty hv h1 h2 h3
    simp [parseMessage, extractContentType, hv, h1, h2, h3]

/-- **C1, witness** for the amended claim at concrete rows: an unparsable
descriptor, a non-dict `rcvMsgContent` value, a `msgContent` object with
no `type` field, and the verbatim `"sticker"` passthrough. -/
theorem contentType_default_or_verbatim_witness :
    (parseMessage rowGarbage none).content_type = Json.str "text"
    ∧ (parseMessage rowRcvString none).content_type = Json.str "text"
    ∧ (parseMessage rowNoType none).content_type = Json.str "text"
    ∧ (parseMessage rowSticker none).content_type = Json.str "sticker" :=
  ⟨(contentType_default_or_verbatim rowGarbage none).1 rfl,
   (contentType_default_or_verbatim rowRcvString none).2.2.1 _ _
     rfl rfl rfl,
   (contentType_default_or_verbatim rowNoType none).2.2.2.2.1 _ _ _
     rfl rfl rfl rfl,
   (contentType_default_or_verbatim rowSticker none).2.2.2.2.2 _ _ _ _
     rfl rfl rfl rfl⟩

/-- **C2, counterexample.**  The claim says a record whose content
descriptor matches neither message-content shape is skipped (contributes
no Message).  `rowGarbage` has an unparsable descriptor (so it matches
neither shape), yet the collection loop of `get_contact_messages` yields
exactly one Message for it — `_parse_message` always returns a (truthy)
dict, so the `if msg:` guard never skips. -/
theorem normalizer_no_skip_cx :
    rowGarbage.item_content.isUnparsableOrMissing = true
    ∧ getContactMessages [rowGarbage] none =
        [{ id := 3, timestamp := "2024-05-05 12:00:00",
           timestamp_raw := some "2024-05-05 12:00:00", sent := true,
           sender := "ME", text := "hello", deleted := false,
           edited := false, content_type := Json.str "text", quote := none }]
    ∧ getContactMessages [rowGarbage] none ≠ [] :=
  ⟨rfl, rfl, List.cons_ne_nil _ _⟩

/-- **C2, amended.**  The Normalizer yields exactly one Message for every
record it receives — including records matching neither content shape,
which degrade to `contentType = text` rather than being skipped; exclusion
of non-matching records is performed by the SQL `LIKE` filters before
normalization, not by the Normalizer. -/
theorem normalizer_one_message_per_record (rows : List Row)
    (cn : Option String) :
    getContactMessages rows cn = rows.map (fun r => parseMessage r cn)
    ∧ (getContactMessages rows cn).length = rows.length := by
  have hmap : getContactMessages rows cn
      = rows.map (fun r => parseMessage r cn) := by
    induction rows with
    | nil => rfl
    | cons r rows ih => simp [getContactMessages] at ih ⊢; exact ih
  exact ⟨hmap, by rw [hmap]; simp⟩

/-- **C3, counterexample.**  The claim says every piece of user-supplied
text embedded in the HTML document is escaped.  A counterpart display name
is user-supplied, yet `export_html` embeds `msg["sender"]` verbatim: for
the sender `<i>` the document contains the raw `<span
class="sender"><i></span>` line, and the escaped form `&lt;i&gt;` appears
nowhere in the message block. -/
theorem html_sender_unescaped_cx :
    escapeHtml "<i>" = "&lt;i&gt;"
    ∧ ("&lt;i&gt;" : String) ≠ "<i>"
    ∧ htmlMsgPart msgEvilSender = some
        ("            <div class=\"msg received\">\n"
          ++ "                <div class=\"msg-header\">\n"
          ++ "                    <span class=\"sender\"><i></span>\n"
          ++ "                    <span><span class=\"time\">10:00:00</span></span>\n"
          ++ "                </div>\n"
          ++ "                <div class=\"content\">hello</div>\n"
          ++ "            </div>\n")
    ∧ ¬ (("&lt;i&gt;").data <:+:
        ("            <div class=\"msg received\">\n"
          ++ "                <div class=\"msg-header\">\n"
          ++ "                    <span class=\"sender\"><i></span>\n"
          ++ "                    <span><span class=\"time\">10:00:00</span></span>\n"
          ++ "                </div>\n"
          ++ "                <div class=\"content\">hello</div>\n"
          ++ "            </div>\n").data)
    ∧ exportHtml [msgEvilSender] "Chat" "2024-06-01 00:00:00" = some
        (htmlDocHeader "Chat" "2024-06-01 00:00:00" 1
          ++ (sepLineHtml "2024-01-01"
          ++ "            <div class=\"msg received\">\n"
          ++ "                <div class=\"msg-header\">\n"
          ++ "                    <span class=\"sender\"><i></span>\n"
          ++ "                    <span><span class=\"time\">10:00:00</span></span>\n"
          ++ "                </div>\n"
          ++ "                <div class=\"content\">hello</div>\n"
          ++ "            </div>\n")
          ++ htmlDocFooter) := by
  refine ⟨by decide, by decide, by decide, by decide, ?_⟩
  have hblock : htmlLoop none [msgEvilSender] = some
      (sepLineHtml "2024-01-01"
        ++ "            <div class=\"msg received\">\n"
        ++ "                <div class=\"msg-header\">\n"
        ++ "                    <span class=\"sender\"><i></span>\n"
        ++ "                    <span><span class=\"time\">10:00:00</span></span>\n"
        ++ "                </div>\n"
        ++ "                <div class=\"content\">hello</div>\n"
        ++ "            </div>\n") := by decide
  simp [exportHtml, hblock]

/-- **C3, amended.**  The message body text and the quote preview embedded
by the HTML renderer are escaped with ampersand replaced first, then angle
brackets, then double-quote, then newline to `<br>`; this chain equals a
single per-character pass, so no entity introduced by a later substitution
is double-escaped, and the stated example renders as claimed.  The sender
label (and likewise the chat label and time) are embedded without
escaping. -/
theorem escape_html_order_and_scope :
    escapeHtml "<b>&\"test\"</b>\nline2"
      = "&lt;b&gt;&amp;&quot;test&quot;&lt;/b&gt;<br>line2"
    ∧ (∀ s, escapeHtml s = String.mk (s.data.flatMap escChar))
    ∧ (∀ m s, m.deleted = false → m.text ≠ "" → htmlMsgPart m = some s →
        (escapeHtml m.text).data <:+: s.data)
    ∧ (∀ m s, htmlMsgPart m = some s →
        ("                    <span class=\"sender\">" ++ m.sender
          ++ "</span>\n").data <:+: s.data) := by
  refine ⟨by decide, ?_, ?_, ?_⟩
  · intro s
    unfold escapeHtml
    rw [escapeHtml_data]
  · intro m s hdel ht hs
    simp [htmlMsgPart, htmlContentPart, hdel, ht] at hs
    refine ⟨(htmlHeaderPart m ++ htmlQuotePart m.quote
      ++ "                <div class=\"content\">").data,
      ("</div>\n" ++ "            </div>\n").data, ?_⟩
    rw [← hs]
    simp [String.data_append, List.append_assoc]
  · intro m s hs
    rcases hc : htmlContentPart m with _ | c
    · rw [htmlMsgPart, hc] at hs; simp at hs
    · rw [htmlMsgPart, hc] at hs
      simp at hs
      refine ⟨("            <div class=\"msg "
          ++ (if m.sent then "sent" else "received") ++ "\">\n"
          ++ "                <div class=\"msg-header\">\n").data,
        ("                    <span><span class=\"time\">" ++ htmlTime m
          ++ "</span>"
          ++ (if m.edited then "<span class=\"edited\">(edited)</span>" else "")
          ++ "</span>\n" ++ "                </div>\n"
          ++ htmlQuotePart m.quote ++ c ++ "            </div>\n").data, ?_⟩
      rw [← hs]
      simp [htmlHeaderPart, String.data_append, List.append_assoc]

/-- **C3, witness** for the amended claim at a concrete message. -/
theorem escape_html_order_and_scope_witness :
    (escapeHtml "a<b").data <:+:
      ("            <div class=\"msg received\">\n"
        ++ "                <div class=\"msg-header\">\n"
        ++ "                    <span class=\"sender\">Bob</span>\n"
        ++ "                    <span><span class=\"time\">10:00:00</span></span>\n"
        ++ "                </div>\n"
        ++ "                <div class=\"content\">a&lt;b</div>\n"
        ++ "            </div>\n").data :=
  escape_html_order_and_scope.2.2.1 msgEscBody _ rfl (by decide) (by decide)

/-- **C4, confirmed** for canonical content types.  For a deleted message
whose content type is hashable (every canonical, string-valued content
type is; an unhashable list/dict value — reachable only through the
verbatim `type` passthrough of C1 — would abort `export_txt` at the
unconditional icon lookup of line 278 before any block is emitted), the
text and HTML renderers replace the body by the fixed `[Message deleted]`
marker regardless of the `text` field (the rendered block does not depend
on `text` at all), while a non-null quote is still rendered — by the very
same quote-rendering functions used for non-deleted messages — before the
marker. -/
theorem deleted_suppresses_body_keeps_quote (m : Message) (q : Quote)
    (hdel : m.deleted = true) (hq : m.quote = some q)
    (hh : m.content_type.isHashable = true) :
    txtMsgChunk m = some [txtHeaderLine m, txtQuoteLine q,
      "│  [Message deleted]", "└─", ""]
    ∧ (∀ t, txtMsgChunk { m with text := t } = txtMsgChunk m)
    ∧ htmlMsgPart m = some (htmlHeaderPart m ++ htmlQuotePart (some q)
        ++ "                <div class=\"content deleted\">[Message deleted]</div>\n"
        ++ "            </div>\n")
    ∧ (∀ t, htmlMsgPart { m with text := t } = htmlMsgPart m) := by
  obtain ⟨i, hi⟩ := iconFor_isSome m.content_type "" hh
  refine ⟨?_, ?_, ?_, ?_⟩
  · simp [txtMsgChunk, hi, hdel, hq]
  · intro t; simp [txtMsgChunk, txtHeaderLine, txtTime, hi, hdel, hq]
  · simp [htmlMsgPart, htmlContentPart, hq, hdel]
  · intro t
    simp [htmlMsgPart, htmlContentPart, htmlHeaderPart, htmlTime, hdel, hq]

/-- **C4, witness** at a deleted message with non-empty text and a quote:
the rendered blocks contain the quote and the marker and never the text
`"secret text"`. -/
theorem deleted_suppresses_body_keeps_quote_witness :
    txtMsgChunk msgDeleted = some [txtHeaderLine msgDeleted,
      txtQuoteLine ⟨"quoted words", false⟩, "│  [Message deleted]", "└─", ""]
    ∧ htmlMsgPart msgDeleted = some (htmlHeaderPart msgDeleted
        ++ htmlQuotePart (some ⟨"quoted words", false⟩)
        ++ "                <div class=\"content deleted\">[Message deleted]</div>\n"
        ++ "            </div>\n") :=
  ⟨(deleted_suppresses_body_keeps_quote msgDeleted ⟨"quoted words", false⟩
      rfl rfl rfl).1,
   (deleted_suppresses_body_keeps_quote msgDeleted ⟨"quoted words", false⟩
      rfl rfl rfl).2.2.1⟩

/-- **C5, confirmed.**  The embedded `_parse_message` is a total function
(every fallible step of the source is wrapped in `try/except: pass`), and
each malformed-input path degrades to its documented fallback: unparsable
or missing content descriptor gives `contentType = "text"`, unparsable,
missing, or empty-text quote descriptor gives `quote = none`, and a
missing, empty, or unparsable timestamp gives the empty string or the raw
string form. -/
theorem normalizer_total_degrades (row : Row) (cn : Option String) :
    (row.item_content.isUnparsableOrMissing = true →
      (parseMessage row cn).content_type = Json.str "text")
    ∧ (row.quoted_content.isUnparsableOrMissing = true →
      (parseMessage row cn).quote = none)
    ∧ (∀ kvs, row.quoted_content = RawVal.parsed (Json.obj kvs) →
        (jlookup "text" kvs = none ∨ jlookup "text" kvs = some (Json.str "")) →
        (parseMessage row cn).quote = none)
    ∧ ((row.item_ts = none ∨ row.item_ts = some "") →
        (parseMessage row cn).timestamp = "")
    ∧ (∀ s, row.item_ts = some s → s ≠ "" → pyHasChar s 'T' = false →
        (parseMessage row cn).timestamp = s)
    ∧ (∀ s, row.item_ts = some s → s ≠ "" → pyHasChar s 'T' = true →
        fromisoformat (cleanTs s) = none →
        (parseMessage row cn).timestamp = s) := by
  refine ⟨?_, ?_, ?_, ?_, ?_, ?_⟩
  · intro h
    rcases hv : row.item_content with _ | s | j
    · simp [parseMessage, extractContentType, hv]
    · simp [parseMessage, extractContentType, hv]
    · rw [hv] at h; simp [RawVal.isUnparsableOrMissing] at h
  · intro h
    rcases hv : row.quoted_content with _ | s | j
    · simp [parseMessage, extractQuote, hv]
    · simp [parseMessage, extractQuote, hv]
    · rw [hv] at h; simp [RawVal.isUnparsableOrMissing] at h
  · intro kvs hv h
    rcases h with h | h <;> simp [parseMessage, extractQuote, hv, h]
  · intro h
    rcases h with h | h <;> simp [parseMessage, formatTimestamp, h]
  · intro s hts hne hT
    simp [parseMessage, formatTimestamp, hts, hne, hT]
  · intro s hts hne hT hpf
    simp [parseMessage, formatTimestamp, hts, hne, hT, hpf]

/-- **C5, witness** at a row whose content and quote columns are
unparsable and whose timestamp has no separator marker. -/
theorem normalizer_total_degrades_witness :
    (parseMessage rowMalformed none).content_type = Json.str "text"
    ∧ (parseMessage rowMalformed none).quote = none
    ∧ (parseMessage rowMalformed none).timestamp = "not-a-date" :=
  ⟨(normalizer_total_degrades rowMalformed none).1 rfl,
   (normalizer_total_degrades rowMalformed none).2.1 rfl,
   (normalizer_total_degrades rowMalformed none).2.2.2.2.1 "not-a-date"
     rfl (by decide) (by decide)⟩

/-- **C6, confirmed.**  Re-reading the `messages` array of the JSON
renderer's output reconstructs, in order, Message records equal in every
field (including `timestamp_raw`) to the originals — the JSON export is
lossless. -/
theorem json_roundtrip_lossless (messages : List Message)
    (chatName nowIso : String) :
    readMessages (exportJson messages chatName nowIso) = some messages :=
  decodeAll_map messages

/-- **C7, counterexample.**  The claim says a date separator is emitted
exactly when a message's date differs from the immediately preceding
message's date.  For the messages with timestamps `2024-01-01 09:00:00`,
`""`, `2024-01-01 10:00:00` the date of each consecutive pair differs, so
the claimed rule requires a separator before the third message; the code
compares against a tracked current date that an empty timestamp neither
emits nor resets, and produces exactly one separator line in total. -/
theorem date_separator_tracked_cx :
    msgDate msgNoDate ≠ msgDate msgJan1a
    ∧ msgDate msgJan1b ≠ msgDate msgNoDate
    ∧ txtLoop none [msgJan1a, msgNoDate, msgJan1b] = some
        ["", sepLineTxt "2024-01-01", "",
         "┌─ [09:00:00] Alice", "│  a", "└─", "",
         "┌─ [] Alice", "│  b", "└─", "",
         "┌─ [10:00:00] Alice", "│  c", "└─", ""]
    ∧ (["", sepLineTxt "2024-01-01", "",
        "┌─ [09:00:00] Alice", "│  a", "└─", "",
        "┌─ [] Alice", "│  b", "└─", "",
        "┌─ [10:00:00] Alice", "│  c", "└─", ""].count
          (sepLineTxt "2024-01-01")) = 1 := by
  refine ⟨by decide, by decide, by decide, by decide⟩

/-- **C7, amended.**  The text and HTML renderers emit a date separator in
one left-to-right pass exactly when the message's date is non-empty and
differs from the tracked current date (the date of the most recent
message with a non-empty date, initially unset); on the claim's concrete
input they emit one separator for `2024-01-01`, two message blocks, one
separator for `2024-01-02`, and one message block. -/
theorem date_grouping_tracked_state (cd : Option String) (m : Message) :
    (msgDate m ≠ "" → some (msgDate m) ≠ cd →
      txtStep cd m = (some (msgDate m),
        (txtMsgChunk m).map (fun ls => ["", sepLineTxt (msgDate m), ""] ++ ls))
      ∧ htmlStep cd m = (some (msgDate m),
        (htmlMsgPart m).map (fun s => sepLineHtml (msgDate m) ++ s)))
    ∧ ((msgDate m = "" ∨ some (msgDate m) = cd) →
      txtStep cd m = (cd, txtMsgChunk m)
      ∧ htmlStep cd m = (cd, htmlMsgPart m))
    ∧ txtLoop none [msgJan1a, msgJan1b, msgJan2] = some
        ["", sepLineTxt "2024-01-01", "",
         "┌─ [09:00:00] Alice", "│  a", "└─", "",
         "┌─ [10:00:00] Alice", "│  c", "└─", "",
         "", sepLineTxt "2024-01-02", "",
         "┌─ [08:00:00] Alice", "│  d", "└─", ""]
    ∧ (["", sepLineTxt "2024-01-01", "",
        "┌─ [09:00:00] Alice", "│  a", "└─", "",
        "┌─ [10:00:00] Alice", "│  c", "└─", "",
        "", sepLineTxt "2024-01-02", "",
        "┌─ [08:00:00] Alice", "│  d", "└─", ""].count
          (sepLineTxt "2024-01-01")) = 1
    ∧ (["", sepLineTxt "2024-01-01", "",
        "┌─ [09:00:00] Alice", "│  a", "└─", "",
        "┌─ [10:00:00] Alice", "│  c", "└─", "",
        "", sepLineTxt "2024-01-02", "",
        "┌─ [08:00:00] Alice", "│  d", "└─", ""].count
          (sepLineTxt "2024-01-02")) = 1
    ∧ htmlLoop none [msgJan1a, msgJan1b, msgJan2] = some
        (sepLineHtml "2024-01-01" ++ ((htmlMsgPart msgJan1a).getD "")
          ++ ((htmlMsgPart msgJan1b).getD "") ++ sepLineHtml "2024-01-02"
          ++ ((htmlMsgPart msgJan2).getD "")) := by
  refine ⟨?_, ?_, by decide, by decide, by decide, by decide⟩
  · intro h1 h2
    constructor <;> simp [txtStep, htmlStep, h1, h2]
  · intro h
    rcases h with h | h
    · constructor <;> simp [txtStep, htmlStep, h]
    · constructor <;> simp [txtStep, htmlStep, h]

/-- **C7, witness** for the amended claim, instantiating the step rules at
concrete states. -/
theorem date_grouping_tracked_state_witness :
    txtStep none msgJan1a = (some "2024-01-01",
      (txtMsgChunk msgJan1a).map
        (fun ls => ["", sepLineTxt "2024-01-01", ""] ++ ls))
    ∧ txtStep (some "2024-01-01") msgJan1b
      = (some "2024-01-01", txtMsgChunk msgJan1b) :=
  ⟨((date_grouping_tracked_state none msgJan1a).1 (by decide) (by decide)).1,
   ((date_grouping_tracked_state (some "2024-01-01") msgJan1b).2.1
     (Or.inr (by decide))).1⟩

/-- **C8, confirmed.**  For every quote, the text renderer previews at
most the first 50 characters of the quote text and appends the `...`
continuation marker exactly when the text exceeds 50 characters, while the
HTML renderer slices to 100 characters before escaping (so a text of at
most 100 characters is escaped in full). -/
theorem quote_preview_bounds (q : Quote) :
    (q.text.length ≤ 50 → quotePreviewTxt q.text = q.text)
    ∧ (q.text.length > 50 →
        quotePreviewTxt q.text = pySlice q.text 50 ++ "..."
        ∧ (pySlice q.text 50).length = 50)
    ∧ txtQuoteLine q = "│  ↳ Reply to "
        ++ (if q.sent_by_me then "ME" else "THEM") ++ ": \""
        ++ quotePreviewTxt q.text ++ "\""
    ∧ htmlQuotePart (some q) = "                <div class=\"quote\">\n"
        ++ "                    <div class=\"quote-sender\">↩ "
        ++ (if q.sent_by_me then "ME" else "THEM") ++ "</div>\n"
        ++ "                    <div class=\"quote-text\">"
        ++ escapeHtml (pySlice q.text 100) ++ "</div>\n"
        ++ "                </div>\n"
    ∧ (q.text.length ≤ 100 → pySlice q.text 100 = q.text) := by
  rcases q with ⟨t, sent⟩
  rcases t with ⟨l⟩
  refine ⟨?_, ?_, rfl, rfl, ?_⟩
  · intro h
    have hd : l.length ≤ 50 := h
    simp [quotePreviewTxt, pySlice, String.length, List.take_of_length_le hd]
    omega
  · intro h
    have hd : l.length > 50 := h
    constructor
    · simp [quotePreviewTxt, String.length]
      omega
    · simp [pySlice, String.length, List.length_take]
      omega
  · intro h
    have hd : l.length ≤ 100 := h
    simp [pySlice, List.take_of_length_le hd]

/-- **C8, witness** at a sixty-character quote text: 50-character preview
plus marker in the text format, the full 60 characters under the
100-character HTML slice. -/
theorem quote_preview_bounds_witness :
    s60.length = 60
    ∧ quotePreviewTxt s60 = pySlice s60 50 ++ "..."
    ∧ (pySlice s60 50).length = 50
    ∧ pySlice s60 100 = s60
    ∧ htmlQuotePart (some ⟨s60, false⟩) = "                <div class=\"quote\">\n"
        ++ "                    <div class=\"quote-sender\">↩ THEM</div>\n"
        ++ "                    <div class=\"quote-text\">"
        ++ escapeHtml (pySlice s60 100) ++ "</div>\n"
        ++ "                </div>\n" :=
  ⟨by decide,
   ((quote_preview_bounds ⟨s60, false⟩).2.1 (by decide)).1,
   ((quote_preview_bounds ⟨s60, false⟩).2.1 (by decide)).2,
   (quote_preview_bounds ⟨s60, false⟩).2.2.2.2 (by decide),
   (quote_preview_bounds ⟨s60, false⟩).2.2.2.1⟩

/-- **C9, counterexample.**  The claim says only a *trailing*
fractional-seconds or zone-suffix component is stripped, and that when the
remainder does not parse the raw string is returned unchanged.  On
`"2024-01-01TZ10:00:00"` — not a parsable ISO date-time, and with no
trailing component to strip — the code nevertheless removes the interior
`'Z'` via `replace('Z', '')`, parses the result, and returns the
reformatted `"2024-01-01 10:00:00"` instead of the raw string. -/
theorem format_timestamp_z_anywhere_cx :
    fromisoformat "2024-01-01TZ10:00:00" = none
    ∧ formatTimestamp (some "2024-01-01TZ10:00:00") = "2024-01-01 10:00:00"
    ∧ ("2024-01-01 10:00:00" : String) ≠ "2024-01-01TZ10:00:00" :=
  ⟨rfl, by decide, by decide⟩

/-- **C9, amended.**  Empty or absent raw timestamps give the empty
string; a raw value without the `'T'` marker is returned unchanged; with
the marker, the value is cleaned — everything from the first `'.'` on is
stripped when a dot is present, otherwise every `'Z'` (wherever it occurs)
is removed — then parsed as ISO date-time and reformatted to
`YYYY-MM-DD HH:MM:SS`, falling back to the raw string when parsing
fails. -/
theorem format_timestamp_fallbacks :
    formatTimestamp none = ""
    ∧ formatTimestamp (some "") = ""
    ∧ (∀ s, s ≠ "" → pyHasChar s 'T' = false → formatTimestamp (some s) = s)
    ∧ (∀ s, s ≠ "" → pyHasChar s 'T' = true →
        fromisoformat (cleanTs s) = none → formatTimestamp (some s) = s)
    ∧ (∀ s dt, s ≠ "" → pyHasChar s 'T' = true →
        fromisoformat (cleanTs s) = some dt →
        formatTimestamp (some s) = strftimeYmdHMS dt)
    ∧ formatTimestamp (some "2024-01-01T10:00:00.123456") = "2024-01-01 10:00:00"
    ∧ formatTimestamp (some "2024-01-01T10:00:00Z") = "2024-01-01 10:00:00"
    ∧ formatTimestamp (some "2024-01-01T10:00:00+02:00") = "2024-01-01 10:00:00"
    ∧ formatTimestamp (some "TOTALLY NOT A DATE") = "TOTALLY NOT A DATE"
    ∧ formatTimestamp (some "1700000000") = "1700000000" := by
  refine ⟨rfl, rfl, ?_, ?_, ?_, by decide, by decide, by decide, by decide,
    by decide⟩
  · intro s h1 h2
    simp [formatTimestamp, h1, h2]
  · intro s h1 h2 h3
    simp [formatTimestamp, h1, h2, h3]
  · intro s dt h1 h2 h3
    simp [formatTimestamp, h1, h2, h3]

/-- **C9, witness** for the amended claim at concrete raw timestamps. -/
theorem format_timestamp_fallbacks_witness :
    formatTimestamp (some "1999-12-31") = "1999-12-31"
    ∧ formatTimestamp (some "broken T stamp") = "broken T stamp"
    ∧ formatTimestamp (some "2023-07-15T23:59:59") = "2023-07-15 23:59:59" :=
  ⟨format_timestamp_fallbacks.2.2.1 "1999-12-31" (by decide) (by decide),
   format_timestamp_fallbacks.2.2.2.1 "broken T stamp" (by decide)
     (by decide) (by decide),
   format_timestamp_fallbacks.2.2.2.2.1 "2023-07-15T23:59:59"
     ⟨2023, 7, 15, 23, 59, 59⟩ (by decide) (by decide) (by decide)⟩

/-- **C10, confirmed.**  A message with an empty timestamp emits no date
separator and leaves the tracked current date unchanged in both the text
and the HTML renderer; consequently, after such a message, a following
message whose date equals the tracked date still emits no separator —
rendering the empty-dated message inside the current run. -/
theorem empty_date_keeps_run (cd : Option String) (d : String)
    (m mNext : Message) :
    (msgDate m = "" →
      txtStep cd m = (cd, txtMsgChunk m)
      ∧ htmlStep cd m = (cd, htmlMsgPart m))
    ∧ (msgDate m = "" → msgDate mNext = d → d ≠ "" →
      txtLoop (some d) [m, mNext] =
        (txtMsgChunk m).bind (fun a => (txtMsgChunk mNext).map
          (fun b => a ++ b))
      ∧ htmlLoop (some d) [m, mNext] =
        (htmlMsgPart m).bind (fun a => (htmlMsgPart mNext).map
          (fun b => a ++ b))) := by
  constructor
  · intro h
    constructor <;> simp [txtStep, htmlStep, h]
  · intro h0 h1 h2
    constructor
    · rcases hc1 : txtMsgChunk m with _ | a <;>
        rcases hc2 : txtMsgChunk mNext with _ | b <;>
        simp [txtLoop, txtStep, h0, h1, h2, hc1, hc2]
    · rcases hc1 : htmlMsgPart m with _ | a <;>
        rcases hc2 : htmlMsgPart mNext with _ | b <;>
        simp [htmlLoop, htmlStep, h0, h1, h2, hc1, hc2]

/-- **C10, witness**: an empty-dated message between two `2024-01-01`
messages produces no separator and no date reset. -/
theorem empty_date_keeps_run_witness :
    txtStep (some "2024-01-01") msgNoDate
      = (some "2024-01-01", txtMsgChunk msgNoDate)
    ∧ txtLoop (some "2024-01-01") [msgNoDate, msgJan1b] =
        (txtMsgChunk msgNoDate).bind (fun a =>
          (txtMsgChunk msgJan1b).map (fun b => a ++ b)) :=
  ⟨((empty_date_keeps_run (some "2024-01-01") "2024-01-01" msgNoDate
      msgJan1b).1 (by decide)).1,
   ((empty_date_keeps_run (some "2024-01-01") "2024-01-01" msgNoDate
      msgJan1b).2 (by decide) (by decide) (by decide)).1⟩
